import Mathlib

/-!
Verification of the pulp agent proxy layer
(`server/pulp/server/agent/direct/pulpagent.py`).

The module is glue code: each facade method constructs a gofer
`Agent(...)` handle from the call context's fields and issues exactly one
remote method invocation, returning the RMI request serial number produced
by the messaging transport.

Embedding: opening an agent handle is recorded as an `AgentOpen` value
whose fields mirror the keyword arguments passed to `Agent(...)` (a field
is `none` exactly when the keyword is not passed).  A facade method is a
function of an abstract `Transport` oracle (supplying the responses of the
external messaging library) and of its Python arguments; it returns the
trace of observable events it performed (agent opens, remote invocations,
log messages) together with the propagated transport result.  The
`agent = Agent(...)` statement of each Python method is embedded as its
own definition (`Consumer.bindAgent` and so on), consumed by the method's
definition.
-/

/-- Dynamic (JSON-like) values carried across the transport boundary:
binding dictionaries, option dictionaries, timeout values, etc. -/
inductive Value where
  | null
  | bool (b : Bool)
  | num (n : Int)
  | str (s : String)
  | arr (xs : List Value)
  | dict (kvs : List (String × Value))

/-- The call context (`pulp.server.agent.direct.context.Context`), as the
facades consume it: addressing and auth fields plus the timeout-policy
lookup `get_timeout`.  The context class itself is outside this slice, so
only the fields the facades read are modelled, each as opaque data. -/
structure Context where
  uuid : String
  url : String
  secret : String
  ctag : String
  watchdog : Value
  details : Value
  get_timeout : String → Value

/-- The keyword arguments of one `Agent(...)` construction.  `uuid` is the
positional argument; every other field is `some v` exactly when the
corresponding keyword argument is passed with value `v`, and `none` when
the keyword is omitted. -/
structure AgentOpen where
  uuid : String
  url : Option String
  timeout : Option Value
  secret : Option String
  ctag : Option String
  watchdog : Option Value
  any : Option Value
  isAsync : Option Bool

/-- One remote method invocation: the agent handle construction, the
capability group selected on the handle (`agent.Consumer()` etc.), the
remote method name, and the argument list.  An argument paired with
`some k` is passed as keyword `k`; with `none` it is positional. -/
structure Call where
  agent : AgentOpen
  capability : String
  method : String
  args : List (Option String × Value)

/-- Observable events of the layer: constructing an agent handle, invoking
a remote method on an opened handle, and emitting a local log message
(the module owns a logger; the facades are claimed never to use it). -/
inductive Event where
  | openAgent (a : AgentOpen)
  | invoke (h : Nat) (capability : String) (method : String)
      (args : List (Option String × Value))
  | logMsg (s : String)

/-- Transport failures surfaced by the external messaging library. -/
inductive TranErr where
  | connection (msg : String)
  | auth (msg : String)
  | remote (msg : String)
deriving DecidableEq

/-- The external messaging transport, as a response oracle: `openResp`
answers an agent construction with a handle (or an error), `invokeResp`
answers a remote invocation on a handle with the RMI request serial
number (or an error). -/
structure Transport where
  openResp : AgentOpen → Except TranErr Nat
  invokeResp : Nat → String → String → List (Option String × Value) →
      Except TranErr String

/-- The shared shape of every facade method body:
construct the agent handle, select the capability, invoke the one remote
method, and return the transport's response, recording the trace.  A
failure at either step propagates as the result. -/
def rmi (T : Transport) (c : Call) : List Event × Except TranErr String :=
  match T.openResp c.agent with
  | .error e => ([.openAgent c.agent], .error e)
  | .ok h =>
      ([.openAgent c.agent, .invoke h c.capability c.method c.args],
       T.invokeResp h c.capability c.method c.args)

/-- The agent construction of `Consumer.unregistered`:
`Agent(context.uuid, url=context.url, secret=context.secret, async=True)`. -/
def Consumer.unregisteredAgent (context : Context) : AgentOpen :=
  { uuid := context.uuid
    url := some context.url
    timeout := none
    secret := some context.secret
    ctag := none
    watchdog := none
    any := none
    isAsync := some true }

/-- `Consumer.unregistered(context)`:
construct the agent, then `agent.Consumer().unregistered()`. -/
def Consumer.unregistered (T : Transport) (context : Context) :
    List Event × Except TranErr String :=
  rmi T
    { agent := Consumer.unregisteredAgent context
      capability := "Consumer"
      method := "unregistered"
      args := [] }

/-- The agent construction of `Consumer.bind`:
`Agent(context.uuid, url=context.url,
timeout=context.get_timeout('bind_timeout'), secret=context.secret,
ctag=context.ctag, watchdog=context.watchdog, any=context.details)`. -/
def Consumer.bindAgent (context : Context) : AgentOpen :=
  { uuid := context.uuid
    url := some context.url
    timeout := some (context.get_timeout "bind_timeout")
    secret := some context.secret
    ctag := some context.ctag
    watchdog := some context.watchdog
    any := some context.details
    isAsync := none }

/-- `Consumer.bind(context, bindings, options)`:
construct the agent, then `agent.Consumer().bind(bindings, options)`. -/
def Consumer.bind (T : Transport) (context : Context)
    (bindings : List Value) (options : Value) :
    List Event × Except TranErr String :=
  rmi T
    { agent := Consumer.bindAgent context
      capability := "Consumer"
      method := "bind"
      args := [(none, Value.arr bindings), (none, options)] }

/-- The agent construction of `Consumer.unbind`: as for bind but with
`timeout=context.get_timeout('unbind_timeout')`. -/
def Consumer.unbindAgent (context : Context) : AgentOpen :=
  { uuid := context.uuid
    url := some context.url
    timeout := some (context.get_timeout "unbind_timeout")
    secret := some context.secret
    ctag := some context.ctag
    watchdog := some context.watchdog
    any := some context.details
    isAsync := none }

/-- `Consumer.unbind(context, bindings, options)`:
construct the agent, then `agent.Consumer().unbind(bindings, options)`. -/
def Consumer.unbind (T : Transport) (context : Context)
    (bindings : List Value) (options : Value) :
    List Event × Except TranErr String :=
  rmi T
    { agent := Consumer.unbindAgent context
      capability := "Consumer"
      method := "unbind"
      args := [(none, Value.arr bindings), (none, options)] }

/-- The agent construction of `Content.install`: as for bind but with
`timeout=context.get_timeout('install_timeout')`. -/
def Content.installAgent (context : Context) : AgentOpen :=
  { uuid := context.uuid
    url := some context.url
    timeout := some (context.get_timeout "install_timeout")
    secret := some context.secret
    ctag := some context.ctag
    watchdog := some context.watchdog
    any := some context.details
    isAsync := none }

/-- `Content.install(context, units, options)`:
construct the agent, then `agent.Content().install(units, options)`. -/
def Content.install (T : Transport) (context : Context)
    (units : List Value) (options : Value) :
    List Event × Except TranErr String :=
  rmi T
    { agent := Content.installAgent context
      capability := "Content"
      method := "install"
      args := [(none, Value.arr units), (none, options)] }

/-- The agent construction of `Content.update`: as for bind but with
`timeout=context.get_timeout('update_timeout')`. -/
def Content.updateAgent (context : Context) : AgentOpen :=
  { uuid := context.uuid
    url := some context.url
    timeout := some (context.get_timeout "update_timeout")
    secret := some context.secret
    ctag := some context.ctag
    watchdog := some context.watchdog
    any := some context.details
    isAsync := none }

/-- `Content.update(context, units, options)`:
construct the agent, then `agent.Content().update(units, options)`. -/
def Content.update (T : Transport) (context : Context)
    (units : List Value) (options : Value) :
    List Event × Except TranErr String :=
  rmi T
    { agent := Content.updateAgent context
      capability := "Content"
      method := "update"
      args := [(none, Value.arr units), (none, options)] }

/-- The agent construction of `Content.uninstall`: as for bind but with
`timeout=context.get_timeout('uninstall_timeout')`. -/
def Content.uninstallAgent (context : Context) : AgentOpen :=
  { uuid := context.uuid
    url := some context.url
    timeout := some (context.get_timeout "uninstall_timeout")
    secret := some context.secret
    ctag := some context.ctag
    watchdog := some context.watchdog
    any := some context.details
    isAsync := none }

/-- `Content.uninstall(context, units, options)`:
construct the agent, then `agent.Content().uninstall(units, options)`. -/
def Content.uninstall (T : Transport) (context : Context)
    (units : List Value) (options : Value) :
    List Event × Except TranErr String :=
  rmi T
    { agent := Content.uninstallAgent context
      capability := "Content"
      method := "uninstall"
      args := [(none, Value.arr units), (none, options)] }

/-- The agent construction of `Profile.send`:
`Agent(context.uuid, secret=context.secret)` - no other keyword passed. -/
def Profile.sendAgent (context : Context) : AgentOpen :=
  { uuid := context.uuid
    url := none
    timeout := none
    secret := some context.secret
    ctag := none
    watchdog := none
    any := none
    isAsync := none }

/-- `Profile.send(context)`:
construct the agent, then `agent.Profile().send()`. -/
def Profile.send (T : Transport) (context : Context) :
    List Event × Except TranErr String :=
  rmi T
    { agent := Profile.sendAgent context
      capability := "Profile"
      method := "send"
      args := [] }

/-- The criteria dictionary built by `PulpAgent.cancel`:
`criteria = {'match': {'task_id': task_id}}`. -/
def PulpAgent.cancelCriteria (task_id : String) : Value :=
  Value.dict [("match", Value.dict [("task_id", Value.str task_id)])]

/-- The agent construction of `PulpAgent.cancel`:
`Agent(context.uuid, url=context.url, secret=context.secret, async=True)`. -/
def PulpAgent.cancelAgent (context : Context) : AgentOpen :=
  { uuid := context.uuid
    url := some context.url
    timeout := none
    secret := some context.secret
    ctag := none
    watchdog := none
    any := none
    isAsync := some true }

/-- `PulpAgent.cancel(context, task_id)`:
builds the criteria dictionary, constructs the agent, and calls
`agent.Admin().cancel(criteria=criteria)`; the remote result is discarded
(the Python method returns None), while a transport failure still
propagates. -/
def PulpAgent.cancel (T : Transport) (context : Context) (task_id : String) :
    List Event × Except TranErr Unit :=
  let r :=
    rmi T
      { agent := PulpAgent.cancelAgent context
        capability := "Admin"
        method := "cancel"
        args := [(some "criteria", PulpAgent.cancelCriteria task_id)] }
  (r.1, r.2.map fun _ => ())

/-- Modelled from the spec: the heartbeat listener of
`pulp.server.agent.direct.services.Services` (the services module is not
part of this slice).  Its backing store maps peer identities to status
records; `status(uuids)` reports, for exactly those of the given keys
present in the backing store, the stored record. -/
structure HeartbeatListener where
  store : List (String × Value)

/-- Modelled from the spec: `status(list of identity) -> mapping`, a
straight report from the backing store restricted to the queried keys. -/
def HeartbeatListener.status (hb : HeartbeatListener) (uuids : List String) :
    List (String × Value) :=
  uuids.filterMap fun u => (hb.store.lookup u).map fun r => (u, r)

/-- Modelled from the spec: the `Services` collaborator, holding the
heartbeat listener consulted by `PulpAgent.status`. -/
structure Services where
  heartbeat_listener : HeartbeatListener

/-- `PulpAgent.status(uuids)`:
`return Services.heartbeat_listener.status(uuids)` - a straight
passthrough to the external status oracle. -/
def PulpAgent.status (services : Services) (uuids : List String) :
    List (String × Value) :=
  services.heartbeat_listener.status uuids

/-- A Python object reference, at the granularity the capability
accessors need: either the class object itself or a numbered instance
produced by an allocation. -/
inductive ObjRef where
  | classObject (name : String)
  | instanceObject (name : String) (id : Nat)
deriving DecidableEq

/-- The allocation state: the next fresh instance identifier. -/
structure Heap where
  next : Nat
deriving DecidableEq

/-- `PulpAgent.consumer` property: `return Consumer` - the class object
itself, with no allocation. -/
def PulpAgent.consumer : Heap → ObjRef × Heap :=
  fun h => (.classObject "Consumer", h)

/-- `PulpAgent.content` property: `return Content` - the class object
itself, with no allocation. -/
def PulpAgent.content : Heap → ObjRef × Heap :=
  fun h => (.classObject "Content", h)

/-- `PulpAgent.profile` property: `return Profile()` - a freshly
allocated instance on every access. -/
def PulpAgent.profile : Heap → ObjRef × Heap :=
  fun h => (.instanceObject "Profile" h.next, ⟨h.next + 1⟩)

/-- Modelled from the spec: the dispatch-client contract says the call is
fire-and-forget exactly when the async option is passed as true
(spec 4.2: async true means fire-and-forget, returns serial immediately;
false means blocks for reply). -/
def AgentOpen.fireAndForget (a : AgentOpen) : Prop :=
  a.isAsync = some true

instance (a : AgentOpen) : Decidable a.fireAndForget := by
  unfold AgentOpen.fireAndForget
  infer_instance

/-! ### Generic facts about the shared remote-invocation shape -/

theorem rmi_head (T : Transport) (c : Call) :
    ((rmi T c).1).head? = some (.openAgent c.agent) := by
  unfold rmi
  cases T.openResp c.agent <;> rfl

theorem rmi_ok (T : Transport) (c : Call) (h : Nat)
    (hh : T.openResp c.agent = .ok h) :
    rmi T c =
      ([.openAgent c.agent, .invoke h c.capability c.method c.args],
       T.invokeResp h c.capability c.method c.args) := by
  unfold rmi
  rw [hh]

theorem rmi_error_iff (T : Transport) (c : Call) (e : TranErr) :
    (rmi T c).2 = .error e ↔
      T.openResp c.agent = .error e ∨
        ∃ h, T.openResp c.agent = .ok h ∧
          T.invokeResp h c.capability c.method c.args = .error e := by
  unfold rmi
  cases hh : T.openResp c.agent with
  | error e2 => simp
  | ok h => simp

theorem rmi_events (T : Transport) (c : Call) :
    ∀ ev ∈ (rmi T c).1,
      ev = .openAgent c.agent ∨
        ∃ h, ev = .invoke h c.capability c.method c.args := by
  intro ev hev
  unfold rmi at hev
  cases hh : T.openResp c.agent with
  | error e =>
      rw [hh] at hev
      simp only [List.mem_singleton] at hev
      exact Or.inl hev
  | ok h =>
      rw [hh] at hev
      simp only [List.mem_cons, List.mem_singleton, List.not_mem_nil,
        or_false] at hev
      rcases hev with h1 | h1
      · exact Or.inl h1
      · exact Or.inr ⟨h, h1⟩

theorem rmi_no_log (T : Transport) (c : Call) (s : String) :
    Event.logMsg s ∉ (rmi T c).1 := by
  intro hmem
  rcases rmi_events T c _ hmem with h1 | ⟨h, h1⟩ <;> simp at h1

theorem rmi_agrees (T T' : Transport) (c : Call)
    (ho : T.openResp c.agent = T'.openResp c.agent)
    (hi : ∀ h, T.invokeResp h c.capability c.method c.args
            = T'.invokeResp h c.capability c.method c.args) :
    rmi T c = rmi T' c := by
  unfold rmi
  rw [← ho]
  cases T.openResp c.agent with
  | error e => rfl
  | ok h =>
      exact congrArg
        (fun r =>
          ([Event.openAgent c.agent,
            Event.invoke h c.capability c.method c.args], r))
        (hi h)

/-! ### Concrete fixtures used to instantiate the theorems -/

/-- A concrete call context. -/
def ctx0 : Context :=
  { uuid := "consumer-1"
    url := "tcp://broker.example.com:5672"
    secret := "s3cret"
    ctag := "pulp.task"
    watchdog := Value.str "watchdog-0"
    details := Value.dict [("extra", Value.num 1)]
    get_timeout := fun k => Value.str k }

/-- A context agreeing with `ctx0` on uuid, url and secret only; timeout
policy, correlation tag, watchdog and details all differ. -/
def ctx1 : Context :=
  { uuid := "consumer-1"
    url := "tcp://broker.example.com:5672"
    secret := "s3cret"
    ctag := "other.tag"
    watchdog := Value.null
    details := Value.null
    get_timeout := fun _ => Value.num 99 }

/-- A transport that accepts every open and answers every invocation with
the serial "serial-1". -/
def T0 : Transport :=
  { openResp := fun _ => .ok 7
    invokeResp := fun _ _ _ _ => .ok "serial-1" }

/-- A transport agreeing with `T0` everywhere except on invocations of the
capability group "Bogus", which no facade ever issues. -/
def T1 : Transport :=
  { openResp := fun _ => .ok 7
    invokeResp := fun _ capability _ _ =>
      if capability = "Bogus" then .error (.remote "boom")
      else .ok "serial-1" }

/-- A transport whose agent construction always fails. -/
def Terr : Transport :=
  { openResp := fun _ => .error (.connection "peer unreachable")
    invokeResp := fun _ _ _ _ => .ok "serial-1" }

/-- A concrete heartbeat store for the status oracle. -/
def services0 : Services :=
  { heartbeat_listener :=
      { store := [("consumer-1", Value.bool true),
                  ("consumer-2", Value.bool false)] } }

/-! ### Claims -/

/-- Claim C1: for every context, bindings list and options,
Consumer.bind opens the agent with timeout = context.get_timeout of
'bind_timeout'; Consumer.unbind with 'unbind_timeout'; and
Content.install, Content.update, Content.uninstall with
'install_timeout', 'update_timeout' and 'uninstall_timeout'
respectively: the opening event of each trace carries exactly that
timeout option. -/
theorem claim1_timeout_keys (T : Transport) (context : Context)
    (bindings units : List Value) (options : Value) :
    (∃ a, ((Consumer.bind T context bindings options).1).head?
          = some (.openAgent a) ∧
        a.timeout = some (context.get_timeout "bind_timeout")) ∧
    (∃ a, ((Consumer.unbind T context bindings options).1).head?
          = some (.openAgent a) ∧
        a.timeout = some (context.get_timeout "unbind_timeout")) ∧
    (∃ a, ((Content.install T context units options).1).head?
          = some (.openAgent a) ∧
        a.timeout = some (context.get_timeout "install_timeout")) ∧
    (∃ a, ((Content.update T context units options).1).head?
          = some (.openAgent a) ∧
        a.timeout = some (context.get_timeout "update_timeout")) ∧
    (∃ a, ((Content.uninstall T context units options).1).head?
          = some (.openAgent a) ∧
        a.timeout = some (context.get_timeout "uninstall_timeout")) :=
  ⟨⟨_, rmi_head T _, rfl⟩, ⟨_, rmi_head T _, rfl⟩, ⟨_, rmi_head T _, rfl⟩,
   ⟨_, rmi_head T _, rfl⟩, ⟨_, rmi_head T _, rfl⟩⟩

/-- Claim C2: for every context and task_id, PulpAgent.cancel constructs
the criteria dictionary exactly as a match on the task id, opens the
agent in asynchronous mode with the context's uuid, url and secret
against the Admin capability group, invokes Admin.cancel with that
criteria, and returns no value. -/
theorem claim2_cancel_shape (T : Transport) (context : Context)
    (task_id : String) :
    (((PulpAgent.cancel T context task_id).1).head? = some (.openAgent
        { uuid := context.uuid
          url := some context.url
          timeout := none
          secret := some context.secret
          ctag := none
          watchdog := none
          any := none
          isAsync := some true })) ∧
    (∀ h capability method args,
        Event.invoke h capability method args
            ∈ (PulpAgent.cancel T context task_id).1 →
          capability = "Admin" ∧ method = "cancel" ∧
          args = [(some "criteria", Value.dict
            [("match", Value.dict [("task_id", Value.str task_id)])])]) ∧
    (∀ h s, T.openResp (PulpAgent.cancelAgent context) = .ok h →
        T.invokeResp h "Admin" "cancel"
            [(some "criteria", PulpAgent.cancelCriteria task_id)] = .ok s →
        (PulpAgent.cancel T context task_id).2 = .ok ()) := by
  refine ⟨rmi_head T _, ?_, ?_⟩
  · intro h capability method args hmem
    rcases rmi_events T
        { agent := PulpAgent.cancelAgent context
          capability := "Admin"
          method := "cancel"
          args := [(some "criteria", PulpAgent.cancelCriteria task_id)] }
        _ hmem with h1 | ⟨h2, h1⟩
    · exact absurd h1 (by simp)
    · injection h1 with e1 e2 e3 e4
      exact ⟨e2, e3, e4⟩
  · intro h s hopen hinv
    show ((rmi T
        { agent := PulpAgent.cancelAgent context
          capability := "Admin"
          method := "cancel"
          args := [(some "criteria", PulpAgent.cancelCriteria task_id)]
        }).2).map (fun _ => ()) = .ok ()
    rw [rmi_ok T _ h hopen]
    rw [hinv]
    rfl

theorem claim2_cancel_shape_witness :
    (PulpAgent.cancel T0 ctx0 "task-9").2 = .ok () :=
  (claim2_cancel_shape T0 ctx0 "task-9").2.2 7 "serial-1" rfl rfl

/-- Claim C4: for every context, Profile.send opens the agent handle
passing only the context's identity (uuid) and secret: the opening
event's record shows every other option (url, timeout, ctag, watchdog,
extra details, async) absent. -/
theorem claim4_profile_identity_only (T : Transport) (context : Context) :
    ((Profile.send T context).1).head? = some (.openAgent
      { uuid := context.uuid
        url := none
        timeout := none
        secret := some context.secret
        ctag := none
        watchdog := none
        any := none
        isAsync := none }) :=
  rmi_head T _

/-- Claim C9: the consumer and content properties return the class
objects themselves (the same reference on every access, with no
allocation), whereas the profile property constructs a fresh Profile
instance on every access (the heap advances and two successive accesses
return distinct references). -/
theorem claim9_capability_accessors (h h' : Heap) :
    (PulpAgent.consumer h).1 = (PulpAgent.consumer h').1 ∧
    (PulpAgent.consumer h).2 = h ∧
    (PulpAgent.content h).1 = (PulpAgent.content h').1 ∧
    (PulpAgent.content h).2 = h ∧
    (PulpAgent.profile h).1 ≠ (PulpAgent.profile (PulpAgent.profile h).2).1 ∧
    (PulpAgent.profile h).2 ≠ h := by
  refine ⟨rfl, rfl, rfl, rfl, ?_, ?_⟩
  · intro he
    injection he with hname hid
    exact Nat.succ_ne_self h.next hid.symm
  · exact fun he => Nat.succ_ne_self h.next (congrArg Heap.next he)

/-- Claim C3, counterexample: Profile.send opens its agent handle with
the async option absent (and with no correlation tag), so under the
dispatch-client contract the call is not issued in fire-and-forget
mode: the claim fails for the Profile.send facade method. -/
theorem claim3_counterexample :
    ((Profile.send T0 ctx0).1).head?
        = some (.openAgent (Profile.sendAgent ctx0)) ∧
    ¬ (Profile.sendAgent ctx0).fireAndForget := by
  constructor
  · exact rmi_head T0 _
  · simp [Profile.sendAgent, AgentOpen.fireAndForget]

/-- Claim C3 (amended): each facade method issues exactly one remote
invocation and immediately returns the transport's response to it;
Consumer.unregistered opens the agent with async true (fire-and-forget),
bind, unbind, install, update and uninstall open it without the async
option but with the context's correlation tag and watchdog for
asynchronous reply routing, and Profile.send opens a plain handle with
neither. -/
theorem claim3_async_dispatch (T : Transport) (context : Context)
    (bindings units : List Value) (options : Value) (h : Nat) :
    ((Consumer.unregisteredAgent context).fireAndForget ∧
      (T.openResp (Consumer.unregisteredAgent context) = .ok h →
        Consumer.unregistered T context =
          ([.openAgent (Consumer.unregisteredAgent context),
            .invoke h "Consumer" "unregistered" []],
           T.invokeResp h "Consumer" "unregistered" []))) ∧
    (((Consumer.bindAgent context).isAsync = none ∧
      (Consumer.bindAgent context).ctag = some context.ctag ∧
      (Consumer.bindAgent context).watchdog = some context.watchdog) ∧
      (T.openResp (Consumer.bindAgent context) = .ok h →
        Consumer.bind T context bindings options =
          ([.openAgent (Consumer.bindAgent context),
            .invoke h "Consumer" "bind"
              [(none, Value.arr bindings), (none, options)]],
           T.invokeResp h "Consumer" "bind"
             [(none, Value.arr bindings), (none, options)]))) ∧
    (((Consumer.unbindAgent context).isAsync = none ∧
      (Consumer.unbindAgent context).ctag = some context.ctag ∧
      (Consumer.unbindAgent context).watchdog = some context.watchdog) ∧
      (T.openResp (Consumer.unbindAgent context) = .ok h →
        Consumer.unbind T context bindings options =
          ([.openAgent (Consumer.unbindAgent context),
            .invoke h "Consumer" "unbind"
              [(none, Value.arr bindings), (none, options)]],
           T.invokeResp h "Consumer" "unbind"
             [(none, Value.arr bindings), (none, options)]))) ∧
    (((Content.installAgent context).isAsync = none ∧
      (Content.installAgent context).ctag = some context.ctag ∧
      (Content.installAgent context).watchdog = some context.watchdog) ∧
      (T.openResp (Content.installAgent context) = .ok h →
        Content.install T context units options =
          ([.openAgent (Content.installAgent context),
            .invoke h "Content" "install"
              [(none, Value.arr units), (none, options)]],
           T.invokeResp h "Content" "install"
             [(none, Value.arr units), (none, options)]))) ∧
    (((Content.updateAgent context).isAsync = none ∧
      (Content.updateAgent context).ctag = some context.ctag ∧
      (Content.updateAgent context).watchdog = some context.watchdog) ∧
      (T.openResp (Content.updateAgent context) = .ok h →
        Content.update T context units options =
          ([.openAgent (Content.updateAgent context),
            .invoke h "Content" "update"
              [(none, Value.arr units), (none, options)]],
           T.invokeResp h "Content" "update"
             [(none, Value.arr units), (none, options)]))) ∧
    (((Content.uninstallAgent context).isAsync = none ∧
      (Content.uninstallAgent context).ctag = some context.ctag ∧
      (Content.uninstallAgent context).watchdog = some context.watchdog) ∧
      (T.openResp (Content.uninstallAgent context) = .ok h →
        Content.uninstall T context units options =
          ([.openAgent (Content.uninstallAgent context),
            .invoke h "Content" "uninstall"
              [(none, Value.arr units), (none, options)]],
           T.invokeResp h "Content" "uninstall"
             [(none, Value.arr units), (none, options)]))) ∧
    (((Profile.sendAgent context).isAsync = none ∧
      (Profile.sendAgent context).ctag = none ∧
      (Profile.sendAgent context).watchdog = none) ∧
      (T.openResp (Profile.sendAgent context) = .ok h →
        Profile.send T context =
          ([.openAgent (Profile.sendAgent context),
            .invoke h "Profile" "send" []],
           T.invokeResp h "Profile" "send" []))) :=
  ⟨⟨rfl, fun hh => rmi_ok T _ h hh⟩,
   ⟨⟨rfl, rfl, rfl⟩, fun hh => rmi_ok T _ h hh⟩,
   ⟨⟨rfl, rfl, rfl⟩, fun hh => rmi_ok T _ h hh⟩,
   ⟨⟨rfl, rfl, rfl⟩, fun hh => rmi_ok T _ h hh⟩,
   ⟨⟨rfl, rfl, rfl⟩, fun hh => rmi_ok T _ h hh⟩,
   ⟨⟨rfl, rfl, rfl⟩, fun hh => rmi_ok T _ h hh⟩,
   ⟨⟨rfl, rfl, rfl⟩, fun hh => rmi_ok T _ h hh⟩⟩

theorem claim3_async_dispatch_witness :
    Consumer.unregistered T0 ctx0 =
      ([.openAgent (Consumer.unregisteredAgent ctx0),
        .invoke 7 "Consumer" "unregistered" []],
       .ok "serial-1") :=
  ((claim3_async_dispatch T0 ctx0 [] [] Value.null 7).1).2 rfl

/-- Claim C5: PulpAgent.status is a straight passthrough to the external
heartbeat status oracle: it returns exactly the oracle's result, the
empty query yields the empty mapping, and the result contains exactly
those queried keys present in the oracle's backing store. -/
theorem claim5_status_passthrough (services : Services)
    (uuids : List String) (u : String) (r : Value) :
    PulpAgent.status services uuids
        = services.heartbeat_listener.status uuids ∧
    PulpAgent.status services [] = [] ∧
    ((u, r) ∈ PulpAgent.status services uuids ↔
      u ∈ uuids ∧ services.heartbeat_listener.store.lookup u = some r) := by
  refine ⟨rfl, rfl, ?_⟩
  unfold PulpAgent.status HeartbeatListener.status
  simp only [List.mem_filterMap]
  constructor
  · rintro ⟨u2, hu2, heq⟩
    cases hlk : services.heartbeat_listener.store.lookup u2 with
    | none =>
        rw [hlk] at heq
        simp at heq
    | some rv =>
        rw [hlk] at heq
        simp only [Option.map_some', Option.some.injEq, Prod.mk.injEq] at heq
        obtain ⟨he1, he2⟩ := heq
        subst he1
        subst he2
        exact ⟨hu2, hlk⟩
  · rintro ⟨hu, hlk⟩
    exact ⟨u, hu, by simp [hlk]⟩

theorem claim5_status_passthrough_witness :
    ("consumer-1", Value.bool true)
        ∈ PulpAgent.status services0 ["consumer-1", "ghost"] :=
  (claim5_status_passthrough services0 ["consumer-1", "ghost"]
      "consumer-1" (Value.bool true)).2.2.mpr ⟨by simp, rfl⟩

theorem except_map_error_iff {α β : Type} (f : α → β)
    (x : Except TranErr α) (e : TranErr) :
    x.map f = .error e ↔ x = .error e := by
  cases x <;> simp [Except.map]

/-- Claim C6: every remote-call method is a pure, deterministic function
of its inputs: its trace and result are fixed by the context and payload
together with the transport's responses at the single call it issues.
Two transports that agree there - however much they differ elsewhere -
yield identical remote calls and identical results, so no hidden local
mutable state can influence a run. -/
theorem claim6_pure_deterministic (T T' : Transport) (context : Context)
    (bindings units : List Value) (options : Value) (task_id : String) :
    ((T.openResp (Consumer.unregisteredAgent context)
          = T'.openResp (Consumer.unregisteredAgent context) →
      (∀ h, T.invokeResp h "Consumer" "unregistered" []
          = T'.invokeResp h "Consumer" "unregistered" []) →
      Consumer.unregistered T context = Consumer.unregistered T' context)) ∧
    ((T.openResp (Consumer.bindAgent context)
          = T'.openResp (Consumer.bindAgent context) →
      (∀ h, T.invokeResp h "Consumer" "bind"
            [(none, Value.arr bindings), (none, options)]
          = T'.invokeResp h "Consumer" "bind"
            [(none, Value.arr bindings), (none, options)]) →
      Consumer.bind T context bindings options
          = Consumer.bind T' context bindings options)) ∧
    ((T.openResp (Consumer.unbindAgent context)
          = T'.openResp (Consumer.unbindAgent context) →
      (∀ h, T.invokeResp h "Consumer" "unbind"
            [(none, Value.arr bindings), (none, options)]
          = T'.invokeResp h "Consumer" "unbind"
            [(none, Value.arr bindings), (none, options)]) →
      Consumer.unbind T context bindings options
          = Consumer.unbind T' context bindings options)) ∧
    ((T.openResp (Content.installAgent context)
          = T'.openResp (Content.installAgent context) →
      (∀ h, T.invokeResp h "Content" "install"
            [(none, Value.arr units), (none, options)]
          = T'.invokeResp h "Content" "install"
            [(none, Value.arr units), (none, options)]) →
      Content.install T context units options
          = Content.install T' context units options)) ∧
    ((T.openResp (Content.updateAgent context)
          = T'.openResp (Content.updateAgent context) →
      (∀ h, T.invokeResp h "Content" "update"
            [(none, Value.arr units), (none, options)]
          = T'.invokeResp h "Content" "update"
            [(none, Value.arr units), (none, options)]) →
      Content.update T context units options
          = Content.update T' context units options)) ∧
    ((T.openResp (Content.uninstallAgent context)
          = T'.openResp (Content.uninstallAgent context) →
      (∀ h, T.invokeResp h "Content" "uninstall"
            [(none, Value.arr units), (none, options)]
          = T'.invokeResp h "Content" "uninstall"
            [(none, Value.arr units), (none, options)]) →
      Content.uninstall T context units options
          = Content.uninstall T' context units options)) ∧
    ((T.openResp (Profile.sendAgent context)
          = T'.openResp (Profile.sendAgent context) →
      (∀ h, T.invokeResp h "Profile" "send" []
          = T'.invokeResp h "Profile" "send" []) →
      Profile.send T context = Profile.send T' context)) ∧
    ((T.openResp (PulpAgent.cancelAgent context)
          = T'.openResp (PulpAgent.cancelAgent context) →
      (∀ h, T.invokeResp h "Admin" "cancel"
            [(some "criteria", PulpAgent.cancelCriteria task_id)]
          = T'.invokeResp h "Admin" "cancel"
            [(some "criteria", PulpAgent.cancelCriteria task_id)]) →
      PulpAgent.cancel T context task_id
          = PulpAgent.cancel T' context task_id)) := by
  refine ⟨?_, ?_, ?_, ?_, ?_, ?_, ?_, ?_⟩
  · exact fun ho hi => rmi_agrees T T' _ ho hi
  · exact fun ho hi => rmi_agrees T T' _ ho hi
  · exact fun ho hi => rmi_agrees T T' _ ho hi
  · exact fun ho hi => rmi_agrees T T' _ ho hi
  · exact fun ho hi => rmi_agrees T T' _ ho hi
  · exact fun ho hi => rmi_agrees T T' _ ho hi
  · exact fun ho hi => rmi_agrees T T' _ ho hi
  · intro ho hi
    exact congrArg (fun p => (p.1, p.2.map fun _ => ()))
      (rmi_agrees T T'
        { agent := PulpAgent.cancelAgent context
          capability := "Admin"
          method := "cancel"
          args := [(some "criteria", PulpAgent.cancelCriteria task_id)] }
        ho hi)

theorem claim6_pure_deterministic_witness :
    Consumer.bind T0 ctx0 [Value.str "b"] Value.null
        = Consumer.bind T1 ctx0 [Value.str "b"] Value.null :=
  (claim6_pure_deterministic T0 T1 ctx0 [Value.str "b"] [] Value.null
      "task-1").2.1 rfl (fun h => by simp [T0, T1])

/-- Claim C7: every facade method propagates a transport failure
unchanged and raises exactly when the transport raised: its result is
error e exactly when the agent construction failed with e, or the
construction succeeded and the remote invocation failed with e; and no
facade emits a local log event. -/
theorem claim7_error_propagation (T : Transport) (context : Context)
    (bindings units : List Value) (options : Value) (task_id : String)
    (e : TranErr) (s : String) :
    (((Consumer.unregistered T context).2 = .error e ↔
      T.openResp (Consumer.unregisteredAgent context) = .error e ∨
        ∃ h, T.openResp (Consumer.unregisteredAgent context) = .ok h ∧
          T.invokeResp h "Consumer" "unregistered" [] = .error e) ∧
     Event.logMsg s ∉ (Consumer.unregistered T context).1) ∧
    (((Consumer.bind T context bindings options).2 = .error e ↔
      T.openResp (Consumer.bindAgent context) = .error e ∨
        ∃ h, T.openResp (Consumer.bindAgent context) = .ok h ∧
          T.invokeResp h "Consumer" "bind"
            [(none, Value.arr bindings), (none, options)] = .error e) ∧
     Event.logMsg s ∉ (Consumer.bind T context bindings options).1) ∧
    (((Consumer.unbind T context bindings options).2 = .error e ↔
      T.openResp (Consumer.unbindAgent context) = .error e ∨
        ∃ h, T.openResp (Consumer.unbindAgent context) = .ok h ∧
          T.invokeResp h "Consumer" "unbind"
            [(none, Value.arr bindings), (none, options)] = .error e) ∧
     Event.logMsg s ∉ (Consumer.unbind T context bindings options).1) ∧
    (((Content.install T context units options).2 = .error e ↔
      T.openResp (Content.installAgent context) = .error e ∨
        ∃ h, T.openResp (Content.installAgent context) = .ok h ∧
          T.invokeResp h "Content" "install"
            [(none, Value.arr units), (none, options)] = .error e) ∧
     Event.logMsg s ∉ (Content.install T context units options).1) ∧
    (((Content.update T context units options).2 = .error e ↔
      T.openResp (Content.updateAgent context) = .error e ∨
        ∃ h, T.openResp (Content.updateAgent context) = .ok h ∧
          T.invokeResp h "Content" "update"
            [(none, Value.arr units), (none, options)] = .error e) ∧
     Event.logMsg s ∉ (Content.update T context units options).1) ∧
    (((Content.uninstall T context units options).2 = .error e ↔
      T.openResp (Content.uninstallAgent context) = .error e ∨
        ∃ h, T.openResp (Content.uninstallAgent context) = .ok h ∧
          T.invokeResp h "Content" "uninstall"
            [(none, Value.arr units), (none, options)] = .error e) ∧
     Event.logMsg s ∉ (Content.uninstall T context units options).1) ∧
    (((Profile.send T context).2 = .error e ↔
      T.openResp (Profile.sendAgent context) = .error e ∨
        ∃ h, T.openResp (Profile.sendAgent context) = .ok h ∧
          T.invokeResp h "Profile" "send" [] = .error e) ∧
     Event.logMsg s ∉ (Profile.send T context).1) ∧
    (((PulpAgent.cancel T context task_id).2 = .error e ↔
      T.openResp (PulpAgent.cancelAgent context) = .error e ∨
        ∃ h, T.openResp (PulpAgent.cancelAgent context) = .ok h ∧
          T.invokeResp h "Admin" "cancel"
            [(some "criteria", PulpAgent.cancelCriteria task_id)]
              = .error e) ∧
     Event.logMsg s ∉ (PulpAgent.cancel T context task_id).1) := by
  refine ⟨⟨?_, ?_⟩, ⟨?_, ?_⟩, ⟨?_, ?_⟩, ⟨?_, ?_⟩, ⟨?_, ?_⟩, ⟨?_, ?_⟩,
    ⟨?_, ?_⟩, ⟨?_, ?_⟩⟩
  · exact rmi_error_iff T _ e
  · exact rmi_no_log T _ s
  · exact rmi_error_iff T _ e
  · exact rmi_no_log T _ s
  · exact rmi_error_iff T _ e
  · exact rmi_no_log T _ s
  · exact rmi_error_iff T _ e
  · exact rmi_no_log T _ s
  · exact rmi_error_iff T _ e
  · exact rmi_no_log T _ s
  · exact rmi_error_iff T _ e
  · exact rmi_no_log T _ s
  · exact rmi_error_iff T _ e
  · exact rmi_no_log T _ s
  · exact (except_map_error_iff (fun _ => ()) _ e).trans
      (rmi_error_iff T
        { agent := PulpAgent.cancelAgent context
          capability := "Admin"
          method := "cancel"
          args := [(some "criteria", PulpAgent.cancelCriteria task_id)] } e)
  · exact rmi_no_log T
      { agent := PulpAgent.cancelAgent context
        capability := "Admin"
        method := "cancel"
        args := [(some "criteria", PulpAgent.cancelCriteria task_id)] } s

theorem claim7_error_propagation_witness :
    (Content.install Terr ctx0 [] Value.null).2
        = .error (.connection "peer unreachable") :=
  ((claim7_error_propagation Terr ctx0 [] [] Value.null "task-1"
      (.connection "peer unreachable") "msg").2.2.2.1.1).mpr (Or.inl rfl)

/-- Claim C8: Consumer.unbind performs no local validation of its
bindings: whatever the bindings list contains (including entries
carrying a details field), the invocation event forwards the bindings
and the options unchanged, and the method's result is exactly the
transport's response - it never raises locally on account of the
bindings' shape. -/
theorem claim8_unbind_no_validation (T : Transport) (context : Context)
    (bindings : List Value) (options : Value) :
    (∀ h capability method args,
        Event.invoke h capability method args
            ∈ (Consumer.unbind T context bindings options).1 →
          args = [(none, Value.arr bindings), (none, options)]) ∧
    (∀ h, T.openResp (Consumer.unbindAgent context) = .ok h →
        (Consumer.unbind T context bindings options).2
          = T.invokeResp h "Consumer" "unbind"
              [(none, Value.arr bindings), (none, options)]) := by
  constructor
  · intro h capability method args hmem
    rcases rmi_events T
        { agent := Consumer.unbindAgent context
          capability := "Consumer"
          method := "unbind"
          args := [(none, Value.arr bindings), (none, options)] }
        _ hmem with h1 | ⟨h2, h1⟩
    · exact absurd h1 (by simp)
    · exact (Event.invoke.inj h1).2.2.2
  · intro h hopen
    exact congrArg Prod.snd
      (rmi_ok T
        { agent := Consumer.unbindAgent context
          capability := "Consumer"
          method := "unbind"
          args := [(none, Value.arr bindings), (none, options)] } h hopen)

/-- A bindings list whose single entry carries a details field, used to
instantiate the no-validation claim. -/
def unbindBindings0 : List Value :=
  [Value.dict [("type_id", Value.str "rpm"),
               ("repo_id", Value.str "repo-1"),
               ("details", Value.dict [("k", Value.num 1)])]]

theorem claim8_unbind_no_validation_witness :
    (Consumer.unbind T0 ctx0 unbindBindings0 Value.null).2 = .ok "serial-1" :=
  ((claim8_unbind_no_validation T0 ctx0 unbindBindings0 Value.null).2
      7 rfl).trans rfl

/-- Claim C10: PulpAgent.cancel reads only the uuid, url and secret of
the context - two contexts agreeing on those three fields produce the
identical trace and result whatever their timeout policy, correlation
tag, watchdog and extra details - and the remote invocation's return
value is discarded: on transport success the method returns unit. -/
theorem claim10_cancel_frame (T : Transport) (context context' : Context)
    (task_id : String)
    (h1 : context.uuid = context'.uuid)
    (h2 : context.url = context'.url)
    (h3 : context.secret = context'.secret) :
    PulpAgent.cancel T context task_id
        = PulpAgent.cancel T context' task_id ∧
    (∀ h s, T.openResp (PulpAgent.cancelAgent context) = .ok h →
        T.invokeResp h "Admin" "cancel"
            [(some "criteria", PulpAgent.cancelCriteria task_id)] = .ok s →
        (PulpAgent.cancel T context task_id).2 = .ok ()) := by
  have hagent :
      PulpAgent.cancelAgent context = PulpAgent.cancelAgent context' := by
    unfold PulpAgent.cancelAgent
    rw [h1, h2, h3]
  constructor
  · unfold PulpAgent.cancel
    rw [hagent]
  · intro h s hopen hinv
    show ((rmi T
        { agent := PulpAgent.cancelAgent context
          capability := "Admin"
          method := "cancel"
          args := [(some "criteria", PulpAgent.cancelCriteria task_id)]
        }).2).map (fun _ => ()) = .ok ()
    rw [rmi_ok T _ h hopen]
    rw [hinv]
    rfl

theorem claim10_cancel_frame_witness :
    PulpAgent.cancel T0 ctx0 "task-3" = PulpAgent.cancel T0 ctx1 "task-3" :=
  (claim10_cancel_frame T0 ctx0 ctx1 "task-3" rfl rfl rfl).1

theorem claim9_capability_accessors_witness :
    (PulpAgent.profile ⟨0⟩).1
        ≠ (PulpAgent.profile (PulpAgent.profile ⟨0⟩).2).1 :=
  (claim9_capability_accessors ⟨0⟩ ⟨5⟩).2.2.2.2.1
